import Mathlib

/-!
Verification of the command-execution core of `releng/executor.py`.

The Python module is shallowly embedded below: dictionaries become
association lists (`EnvMap`), exceptions become `Except` / error flags,
in-place mutation becomes explicit state passing, and the process-spawn
backend becomes an oracle `Cmd → Int` giving each command's exit code.
Python library functions used by the source (`pipes.quote`,
`subprocess.list2cmdline`, `str.splitlines`, `str.strip`, `str.split`,
`re.match r"\w+="`, `os.path.isabs`, `distutils.spawn.find_executable`)
are embedded faithfully from their CPython 2.7 definitions.
-/

namespace Releng

/-! ## Python dictionaries as association lists -/

/-- A Python `dict` from variable names to values, as an association list
keyed on the first occurrence. -/
abbrev EnvMap := List (String × String)

/-- `d[k]` lookup returning `none` when the key is absent. -/
def envLookup : EnvMap → String → Option String
  | [], _ => none
  | (k, v) :: rest, key => if k = key then some v else envLookup rest key

/-- `d[k] = v`: overwrite the existing binding in place, or append a new one. -/
def envSet : EnvMap → String → String → EnvMap
  | [], key, val => [(key, val)]
  | (k, v) :: rest, key, val =>
    if k = key then (key, val) :: rest else (k, v) :: envSet rest key val

/-! ## Python string helpers -/

/-- Characters stripped by Python `str.strip()` (its whitespace set). -/
def pyIsSpace (c : Char) : Bool :=
  c = ' ' || c = '\t' || c = '\n' || c = '\r' || c = '\x0b' || c = '\x0c'

/-- Python `str.strip()`: remove whitespace from both ends. -/
def pyStrip (s : String) : String :=
  String.mk (((s.data.dropWhile pyIsSpace).reverse.dropWhile pyIsSpace).reverse)

/-- Split a character list at the first occurrence of `sep`, if any. -/
def splitFirst (sep : Char) : List Char → Option (List Char × List Char)
  | [] => none
  | c :: rest =>
    if c = sep then some ([], rest)
    else (splitFirst sep rest).map (fun p => (c :: p.1, p.2))

/-- Python `s.split(sep, 1)`: at most one split, at the first occurrence. -/
def pySplit1 (s : String) (sep : Char) : List String :=
  match splitFirst sep s.data with
  | none => [s]
  | some (a, b) => [String.mk a, String.mk b]

/-- Python `s.split(sep)` with a single-character separator: full split,
keeping empty fields (`"".split(sep) == [""]`). -/
def pySplitCharGo (sep : Char) : List Char → List Char → List String
  | [], acc => [String.mk acc.reverse]
  | c :: rest, acc =>
    if c = sep then String.mk acc.reverse :: pySplitCharGo sep rest []
    else pySplitCharGo sep rest (c :: acc)

/-- Python `s.split(sep)` for one-character `sep`. -/
def pySplitChar (s : String) (sep : Char) : List String :=
  pySplitCharGo sep s.data []

/-- Worker for `pySplitlines`: split on `\n`, `\r\n` and `\r`; a trailing
terminator produces no trailing empty line. -/
def pySplitlinesGo : List Char → List Char → List String
  | [], acc => if acc.isEmpty then [] else [String.mk acc.reverse]
  | '\r' :: '\n' :: rest, acc => String.mk acc.reverse :: pySplitlinesGo rest []
  | c :: rest, acc =>
    if c = '\n' || c = '\r' then String.mk acc.reverse :: pySplitlinesGo rest []
    else pySplitlinesGo rest (c :: acc)

/-- Python `str.splitlines()`. -/
def pySplitlines (s : String) : List String :=
  pySplitlinesGo s.data []

/-- A Python 2 `\w` character without `re.UNICODE`: `[a-zA-Z0-9_]`. -/
def isWordChar (c : Char) : Bool :=
  c.isAlphanum || c = '_'

/-- Worker for `matchWordEq`; `seen` records whether at least one word
character has been consumed (the `+` in `\w+=`). -/
def matchWordEqGo : List Char → Bool → Bool
  | [], _ => false
  | c :: rest, seen =>
    if isWordChar c then matchWordEqGo rest true
    else c = '=' && seen

/-- `re.match(r"\w+=", line)` as a Boolean: the line starts with one or
more word characters followed directly by `=`. -/
def matchWordEq (line : String) : Bool :=
  matchWordEqGo line.data false

/-! ## `pipes.quote` (CPython 2.7 `pipes.py`) -/

/-- The characters `pipes.quote` considers safe:
ASCII letters, digits, and `@%_-+=:,./`. -/
def isSafeChar (c : Char) : Bool :=
  c.isAlphanum || c = '@' || c = '%' || c = '_' || c = '-' || c = '+' ||
    c = '=' || c = ':' || c = ',' || c = '.' || c = '/'

/-- `file.replace("'", "'\"'\"'")`: the body of a quoted token. -/
def pipesQuoteEsc (s : String) : String :=
  String.join (s.data.map (fun c =>
    if c = '\'' then "'\"'\"'" else String.singleton c))

/-- `pipes.quote(file)`: return `file` unchanged when every character is
safe (and `''` for the empty string); otherwise wrap in single quotes,
escaping embedded single quotes. -/
def pipesQuote (s : String) : String :=
  if s.data.all isSafeChar then
    if s = "" then "''" else s
  else "'" ++ pipesQuoteEsc s ++ "'"

/-! ## `subprocess.list2cmdline` (CPython 2.7 `subprocess.py`) -/

/-- A run of `n` backslashes. -/
def bsStr (n : Nat) : String :=
  String.mk (List.replicate n '\\')

/-- The inner character loop of `list2cmdline` for one argument: returns
the emitted pieces and the final pending-backslash buffer (`bs_buf`). -/
def l2cBody : List Char → Nat → String × Nat
  | [], bs => ("", bs)
  | c :: rest, bs =>
    if c = '\\' then l2cBody rest (bs + 1)
    else if c = '"' then
      let p := l2cBody rest 0
      (bsStr (2 * bs) ++ "\\\"" ++ p.1, p.2)
    else
      let p := l2cBody rest 0
      (bsStr bs ++ String.singleton c ++ p.1, p.2)

/-- One argument of `list2cmdline`: quote-wrap when the argument contains
a space or tab or is empty; inside the loop backslashes before a `"` are
doubled, and when quote-wrapped the trailing backslash run is doubled. -/
def list2cmdlineArg (arg : String) : String :=
  let needquote := arg.data.any (· = ' ') || arg.data.any (· = '\t') || arg = ""
  let p := l2cBody arg.data 0
  if needquote then "\"" ++ (p.1 ++ bsStr p.2 ++ bsStr p.2) ++ "\""
  else p.1 ++ bsStr p.2

/-- The double-quoted body of `list2cmdlineArg` when quoting is needed:
the loop's pieces followed by the trailing backslash run doubled. -/
def l2cQuotedBody (arg : String) : String :=
  (l2cBody arg.data 0).1 ++ bsStr (l2cBody arg.data 0).2 ++ bsStr (l2cBody arg.data 0).2

/-- `subprocess.list2cmdline(seq)`. The source inserts a space before
every argument once `result` is non-empty; each argument appends at least
one piece to `result`, so this is exactly a single-space join. -/
def list2cmdline (seq : List String) : String :=
  String.intercalate " " (seq.map list2cmdlineArg)

/-! ## Commands and their display strings -/

/-- A command: either an argv-style token list (`shell=False`) or a single
shell string (`shell=True`). -/
inductive Cmd
  | argv (args : List String)
  | shellStr (s : String)
deriving DecidableEq

/-- Whether the command is run in shell mode (`shell=True`), which in the
source accompanies the shell-string form. -/
def Cmd.isShell : Cmd → Bool
  | .argv _ => false
  | .shellStr _ => true

/-- `CommandRunner._cmd_to_string(cmd, shell)`: verbatim for shell mode,
`subprocess.list2cmdline` on Windows, and `pipes.quote` per token joined
by spaces elsewhere. -/
def cmdToString (isWindows : Bool) : Cmd → String
  | .shellStr s => s
  | .argv args =>
    if isWindows then list2cmdline args
    else String.intercalate " " (args.map pipesQuote)

/-! ## Environment-variable operations of `CommandRunner` -/

/-- `CommandRunner.set_env_var`: assign only when `value is not None`. -/
def set_env_var (env : EnvMap) (v : String) (value : Option String) : EnvMap :=
  match value with
  | none => env
  | some s => envSet env v s

/-- `CommandRunner.append_to_env_var`: if the variable is present with a
truthy (non-empty) value, append `sep + value`; otherwise assign `value`. -/
def append_to_env_var (env : EnvMap) (v value : String) (sep : String := " ") : EnvMap :=
  match envLookup env v with
  | some old => if old ≠ "" then envSet env v (old ++ sep ++ value) else envSet env v value
  | none => envSet env v value

/-- `CommandRunner.prepend_to_env_var`: if the variable is present with a
truthy (non-empty) value, assign `sep.join((value, old))`; otherwise
assign `value`. -/
def prepend_to_env_var (env : EnvMap) (v value : String) (sep : String := " ") : EnvMap :=
  match envLookup env v with
  | some old => if old ≠ "" then envSet env v (value ++ sep ++ old) else envSet env v value
  | none => envSet env v value

/-! ## `CommandRunner.import_env`

The captured output is split into lines; a line matching `\w+=` is
stripped and split at the first `=` into a variable assignment, any other
line is echoed to the console.  Python's tuple unpacking of the split
raises `ValueError` when the part count is not two; mutation performed
before an exception persists, so the worker returns the environment
reached so far together with the echoed lines and an optional error. -/

/-- Python exception values that the embedded code can raise. -/
inductive PyError
  | keyError (key : String)
  | assertionError
  | valueError
deriving DecidableEq

/-- The line loop of `import_env`. -/
def importLines : EnvMap → List String → EnvMap × List String × Option PyError
  | env, [] => (env, [], none)
  | env, line :: rest =>
    if matchWordEq line then
      match pySplit1 (pyStrip line) '=' with
      | [v, value] => importLines (envSet env v value) rest
      | _ => (env, [], some .valueError)
    else
      let r := importLines env rest
      (r.1, line :: r.2.1, r.2.2)

/-- The composite command built by `import_env`:
`env_cmd + ' && ' + cmake_command + ' -E environment'`. -/
def importEnvCmd (envCmd cmakeCommand : String) : String :=
  envCmd ++ " && " ++ cmakeCommand ++ " -E environment"

/-- The post-capture part of `CommandRunner.import_env`, parametrized by
the captured output of the backend's `check_output` (`none` embeds Python
`None`, as returned by the dry-run backend).  A falsy result (`None` or
the empty string) skips the whole loop.  The `check_output` dispatch that
precedes this — and prints the command echo to the console — is embedded
below as `importEnvRun`. -/
def import_env (env : EnvMap) (captured : Option String) :
    EnvMap × List String × Option PyError :=
  match captured with
  | none => (env, [], none)
  | some s => if s = "" then (env, [], none) else importLines env (pySplitlines s)

/-! ## `CurrentDirectoryTracker` -/

/-- Whether a string starts with the given character. -/
def startsWithChar (s : String) (c : Char) : Bool :=
  match s.data with
  | [] => false
  | x :: _ => x = c

/-- Whether a string ends with the given character. -/
def endsWithChar (s : String) (c : Char) : Bool :=
  match s.data.getLast? with
  | none => false
  | some x => x = c

/-- `os.path.isabs` on POSIX: the path starts with a slash. -/
def isabs (p : String) : Bool :=
  startsWithChar p '/'

/-- Tracks the current logical working directory. -/
structure CurrentDirectoryTracker where
  cwd : String
deriving DecidableEq

/-- `CurrentDirectoryTracker.chdir(path)`: `assert os.path.isabs(path)`
runs before the assignment, so a relative path raises `AssertionError`
(the spec's `InvalidArgument` condition) and leaves the stored path
unchanged; an absolute path replaces the stored path. -/
def CurrentDirectoryTracker.chdir (t : CurrentDirectoryTracker) (path : String) :
    CurrentDirectoryTracker × Option PyError :=
  if isabs path then ({ cwd := path }, none) else (t, some .assertionError)

/-- The tracker states reachable in a run of the program: it is
initialized from `os.getcwd()`, which returns an absolute path, and is
only ever mutated through `chdir`. -/
inductive TrackerReachable : CurrentDirectoryTracker → Prop
  | init (p : String) : isabs p = true → TrackerReachable ⟨p⟩
  | step (t : CurrentDirectoryTracker) (path : String) :
      TrackerReachable t → TrackerReachable (t.chdir path).1

/-! ## `CommandRunner.call` / `check_call`

The real backend is `subprocess`: `subprocess.call` returns the exit code
and never raises `CalledProcessError`, while `subprocess.check_call`
raises `CalledProcessError` exactly when the exit code is nonzero.  The
spawned processes are embedded as an oracle `exitCode : Cmd → Int`. -/

/-- The `subprocess`-level error caught by the runner. -/
inductive SubprocessError
  | calledProcessError (returncode : Int)
deriving DecidableEq

/-- `subprocess.call`: returns the exit code, raising nothing on a
nonzero exit. -/
def executorCall (exitCode : Cmd → Int) (cmd : Cmd) : Except SubprocessError Int :=
  .ok (exitCode cmd)

/-- `subprocess.check_call`: raises `CalledProcessError` on nonzero exit. -/
def executorCheckCall (exitCode : Cmd → Int) (cmd : Cmd) : Except SubprocessError Unit :=
  if exitCode cmd = 0 then .ok () else .error (.calledProcessError (exitCode cmd))

/-- The uniform error raised by the runner, carrying only the rendered
command string. -/
structure CommandError where
  msg : String
deriving DecidableEq

/-- The runner state relevant to command dispatch. -/
structure CommandRunner where
  cwd : CurrentDirectoryTracker
  env : EnvMap
  isWindows : Bool

/-- The result of `CommandRunner._prepare_cmd`: the rendered command
string, the `'+ '`-prefixed line printed to the backend console, and the
`cwd` / `env` defaults filled into the keyword arguments. -/
structure PreparedCmd where
  cmdString : String
  consoleLine : String
  cwd : String
  env : EnvMap

/-- `CommandRunner._prepare_cmd` (for a call without caller overrides):
render the display string, print `'+ ' + cmd_string` to the console, and
default `cwd` and `env` from the runner's state. -/
def prepareCmd (r : CommandRunner) (cmd : Cmd) : PreparedCmd :=
  let s := cmdToString r.isWindows cmd
  { cmdString := s, consoleLine := "+ " ++ s, cwd := r.cwd.cwd, env := r.env }

/-- `CommandRunner.call`: delegate to `subprocess.call`, converting a
`CalledProcessError` (which `subprocess.call` never raises) into
`CommandError(cmd_string)`. -/
def CommandRunner.call (r : CommandRunner) (exitCode : Cmd → Int) (cmd : Cmd) :
    PreparedCmd × Except CommandError Int :=
  let p := prepareCmd r cmd
  match executorCall exitCode cmd with
  | .ok code => (p, .ok code)
  | .error _ => (p, .error { msg := p.cmdString })

/-- `CommandRunner.check_call`: delegate to `subprocess.check_call`,
converting `CalledProcessError` into `CommandError(cmd_string)`. -/
def CommandRunner.check_call (r : CommandRunner) (exitCode : Cmd → Int) (cmd : Cmd) :
    PreparedCmd × Except CommandError Unit :=
  let p := prepareCmd r cmd
  match executorCheckCall exitCode cmd with
  | .ok _ => (p, .ok ())
  | .error _ => (p, .error { msg := p.cmdString })

/-! ## `find_executable` -/

/-- `os.path.join` on POSIX for two components. -/
def posixJoin (a b : String) : String :=
  if startsWithChar b '/' then b
  else if a = "" || endsWithChar a '/' then a ++ b
  else a ++ "/" ++ b

/-- The search loop of `distutils.spawn.find_executable`. -/
def findInPaths (isfile : String → Bool) (executable : String) :
    List String → Option String
  | [] => none
  | p :: rest =>
    let f := posixJoin p executable
    if isfile f then some f else findInPaths isfile executable rest

/-- `distutils.spawn.find_executable(executable, path)` on POSIX: when
`path is None` it reads `os.environ['PATH']` (raising `KeyError` when the
ambient environment has none); the path list is split on `:`; a name that
is already an existing file is returned as-is, otherwise each directory
is tried in order.  `isfile` embeds `os.path.isfile`. -/
def find_executable (isfile : String → Bool) (ambient : EnvMap)
    (executable : String) (path : Option String) : Except PyError (Option String) :=
  match path with
  | none =>
    match envLookup ambient "PATH" with
    | none => .error (.keyError "PATH")
    | some p =>
      if isfile executable then .ok (some executable)
      else .ok (findInPaths isfile executable (pySplitChar p ':'))
  | some p =>
    if isfile executable then .ok (some executable)
    else .ok (findInPaths isfile executable (pySplitChar p ':'))

/-- `CommandRunner.find_executable(name)`: looks up `self._env['PATH']`
(raising `KeyError` when the owned mapping has no `PATH`) and passes it as
the explicit `path` argument. -/
def CommandRunner.find_executable (isfile : String → Bool) (ambient : EnvMap)
    (env : EnvMap) (name : String) : Except PyError (Option String) :=
  match envLookup env "PATH" with
  | none => .error (.keyError "PATH")
  | some p => Releng.find_executable isfile ambient name (some p)

/-! ## `DryRunExecutor` -/

/-- `DryRunExecutor.call`: always returns success without spawning. -/
def dryRunCall (_cmd : Cmd) : Int := 0

/-- `DryRunExecutor.check_output`: the body is `pass`, so it returns
Python `None`. -/
def dryRunCheckOutput (_cmd : Cmd) : Option String := none

/-! ## `CommandRunner.check_output` and the full `import_env` dispatch

`import_env` does not receive its captured output directly: it calls
`self.check_output(cmd, shell=True)`, which goes through `_prepare_cmd`
and therefore prints the `'+ ' + cmd_string` echo to the backend console
on every call, before and regardless of what the backend returns.  The
backend's `check_output` primitive is embedded as an oracle
`Cmd → Except SubprocessError (Option String)`: the real backend returns
captured output or raises `CalledProcessError` on nonzero exit, the
dry-run backend returns `None` and never raises. -/

/-- `CommandRunner.check_output`: prepare the command (printing the
console echo), delegate to the backend's `check_output`, and convert
`CalledProcessError` into `CommandError(cmd_string)`. -/
def CommandRunner.check_output (r : CommandRunner)
    (checkOutput : Cmd → Except SubprocessError (Option String)) (cmd : Cmd) :
    PreparedCmd × Except CommandError (Option String) :=
  let p := prepareCmd r cmd
  match checkOutput cmd with
  | .ok out => (p, .ok out)
  | .error _ => (p, .error { msg := p.cmdString })

/-- What `CommandRunner.import_env` can raise: the `CommandError` from
the `check_output` dispatch, or a Python error from the parsing loop. -/
inductive ImportEnvError
  | commandError (msg : String)
  | pyError (e : PyError)
deriving DecidableEq

/-- `CommandRunner.import_env` including its `check_output` dispatch:
the composite shell command is rendered and echoed to the console by
`_prepare_cmd`, the backend runs it, and the captured output (if truthy)
drives the parsing loop.  The returned console output lists every line
printed during the call, the command echo first. -/
def importEnvRun (r : CommandRunner)
    (checkOutput : Cmd → Except SubprocessError (Option String))
    (envCmd cmakeCommand : String) : EnvMap × List String × Option ImportEnvError :=
  let cmd := Cmd.shellStr (importEnvCmd envCmd cmakeCommand)
  let res := r.check_output checkOutput cmd
  match res.2 with
  | .error e => (r.env, [res.1.consoleLine], some (.commandError e.msg))
  | .ok captured =>
    let l := import_env r.env captured
    (l.1, res.1.consoleLine :: l.2.1, l.2.2.map .pyError)

/-! ## Dictionary identity: a store of dictionaries

`CommandRunner.__init__` runs `self._env = dict(factory.env)`: it
allocates a fresh dictionary holding a copy of the snapshot's entries.
To express aliasing (which Lean's pure values cannot), dictionaries live
in a store indexed by references; every runner mutation writes through
the runner's own reference. -/

/-- A heap of Python dictionaries; a reference is an index. -/
structure Store where
  dicts : List EnvMap

/-- Dereference; an invalid reference yields the empty mapping. -/
def Store.get (st : Store) (r : Nat) : EnvMap :=
  (st.dicts.get? r).getD []

/-- Overwrite the dictionary a reference points to. -/
def Store.setRef (st : Store) (r : Nat) (m : EnvMap) : Store :=
  { dicts := st.dicts.set r m }

/-- Allocate a fresh dictionary, returning its reference. -/
def Store.alloc (st : Store) (m : EnvMap) : Store × Nat :=
  ({ dicts := st.dicts ++ [m] }, st.dicts.length)

/-- The identity of a runner's owned environment dictionary. -/
structure CommandRunnerRef where
  envRef : Nat

/-- `CommandRunner.__init__`, restricted to the environment field:
`self._env = dict(factory.env)` copies the snapshot into a freshly
allocated dictionary. -/
def mkCommandRunner (st : Store) (factoryEnvRef : Nat) : Store × CommandRunnerRef :=
  let p := st.alloc (st.get factoryEnvRef)
  (p.1, { envRef := p.2 })

/-- The runner operations that mutate the owned environment mapping. -/
inductive EnvMutation
  | setVar (v : String) (value : Option String)
  | appendVar (v value sep : String)
  | prependVar (v value sep : String)
  | importEnv (captured : Option String)

/-- The new value of the owned mapping after one mutation. -/
def applyEnvMutation (env : EnvMap) : EnvMutation → EnvMap
  | .setVar v value => set_env_var env v value
  | .appendVar v value sep => append_to_env_var env v value sep
  | .prependVar v value sep => prepend_to_env_var env v value sep
  | .importEnv captured => (import_env env captured).1

/-- One runner mutation acting on the store: it reads and writes
`self._env`, the runner's own dictionary. -/
def runnerMutate (st : Store) (r : CommandRunnerRef) (m : EnvMutation) : Store :=
  st.setRef r.envRef (applyEnvMutation (st.get r.envRef) m)

/-- A sequence of runner mutations acting on the store. -/
def runnerMutateList (st : Store) (r : CommandRunnerRef) : List EnvMutation → Store
  | [] => st
  | m :: rest => runnerMutateList (runnerMutate st r m) r rest

/-! ## Helper lemmas -/

/-- Reading a reference other than the one written is unchanged. -/
theorem store_get_setRef_ne (st : Store) (r j : Nat) (m : EnvMap) (h : r ≠ j) :
    (st.setRef r m).get j = st.get j := by
  simp [Store.setRef, Store.get, List.getElem?_set_ne h]

/-- Runner mutations touch only the runner's own dictionary. -/
theorem runnerMutateList_get_ne (st : Store) (r : CommandRunnerRef)
    (muts : List EnvMutation) (j : Nat) (h : r.envRef ≠ j) :
    (runnerMutateList st r muts).get j = st.get j := by
  induction muts generalizing st with
  | nil => rfl
  | cons m rest ih =>
    rw [runnerMutateList, ih, runnerMutate, store_get_setRef_ne _ _ _ _ h]

/-- Reading the index just past the end of the old list after appending
yields the appended element. -/
theorem list_get_append_length {α : Type} (l : List α) (a : α) :
    (l ++ [a]).get? l.length = some a := by
  induction l with
  | nil => rfl
  | cons x xs ih => simp [ih]

/-! ## Claim theorems -/

/-- C2: `import_env` splits the captured output into lines; a line
matching `\w+=` is stripped and split at the first `=` into an
assignment overwriting the owned mapping, and every other line is echoed
to the console; in particular `"FOO=bar\nnotaline\nBAZ=qux\n"` sets
`FOO=bar` and `BAZ=qux`, echoes `"notaline"`, and raises no error. -/
theorem C2_import_env_classifies_lines :
    ∀ (env : EnvMap) (line : String) (rest : List String),
    (matchWordEq line = false →
      importLines env (line :: rest) =
        ((importLines env rest).1, line :: (importLines env rest).2.1,
          (importLines env rest).2.2)) ∧
    (∀ v value, matchWordEq line = true → pySplit1 (pyStrip line) '=' = [v, value] →
      importLines env (line :: rest) = importLines (envSet env v value) rest) ∧
    import_env env (some "FOO=bar\nnotaline\nBAZ=qux\n") =
      (envSet (envSet env "FOO" "bar") "BAZ" "qux", ["notaline"], none) := by
  intro env line rest
  refine ⟨?_, ?_, rfl⟩
  · intro h
    simp [importLines, h]
  · intro v value h hsplit
    simp [importLines, h, hsplit]

/-- C2 witness: the concrete captured output from the claim, on the empty
environment. -/
theorem C2_witness :
    import_env [] (some "FOO=bar\nnotaline\nBAZ=qux\n") =
      (envSet (envSet [] "FOO" "bar") "BAZ" "qux", ["notaline"], none) :=
  (C2_import_env_classifies_lines [] "x" []).2.2

/-- C4: `chdir` with an absolute path replaces the stored path; with a
relative path it fails with the `InvalidArgument` condition (the
`assert`'s `AssertionError`) and the stored path is unchanged. -/
theorem C4_chdir_absolute_or_invalid :
    ∀ (t : CurrentDirectoryTracker) (p : String),
    (isabs p = true → t.chdir p = ({ cwd := p }, none)) ∧
    (isabs p = false → t.chdir p = (t, some .assertionError)) := by
  intro t p
  constructor
  · intro h; simp [CurrentDirectoryTracker.chdir, h]
  · intro h; simp [CurrentDirectoryTracker.chdir, h]

/-- C4 witness: a concrete absolute and a concrete relative path. -/
theorem C4_witness :
    CurrentDirectoryTracker.chdir ⟨"/home"⟩ "/tmp" = ({ cwd := "/tmp" }, none) ∧
    CurrentDirectoryTracker.chdir ⟨"/home"⟩ "rel" = (⟨"/home"⟩, some .assertionError) :=
  ⟨(C4_chdir_absolute_or_invalid ⟨"/home"⟩ "/tmp").1 (by decide),
   (C4_chdir_absolute_or_invalid ⟨"/home"⟩ "rel").2 (by decide)⟩

/-- C6: in every reachable tracker state the stored path is absolute: the
initial value comes from `os.getcwd()` (an absolute path) and `chdir`
only ever stores absolute paths. -/
theorem C6_tracker_cwd_always_absolute :
    ∀ (t : CurrentDirectoryTracker), TrackerReachable t → isabs t.cwd = true := by
  intro t h
  induction h with
  | init p hp => exact hp
  | step t path _ ih =>
    by_cases hp : isabs path = true
    · simp [CurrentDirectoryTracker.chdir, hp]
    · simp only [CurrentDirectoryTracker.chdir]
      rw [if_neg (by simpa using hp)]
      exact ih

/-- C6 witness: the root path is reachable and absolute. -/
theorem C6_witness : isabs (CurrentDirectoryTracker.mk "/").cwd = true :=
  C6_tracker_cwd_always_absolute ⟨"/"⟩ (.init "/" (by decide))

/-- C7: `append_to_env_var` appends `sep + value` when the variable has a
non-empty value and assigns `value` otherwise; in particular appending
`/x` to an unset `PATH` gives `/x`, and to `PATH=/a` gives `/a /x`. -/
theorem C7_append_var :
    ∀ (env : EnvMap) (v value sep : String),
    (∀ old, envLookup env v = some old → old ≠ "" →
      append_to_env_var env v value sep = envSet env v (old ++ sep ++ value)) ∧
    (envLookup env v = none → append_to_env_var env v value sep = envSet env v value) ∧
    (envLookup env v = some "" → append_to_env_var env v value sep = envSet env v value) ∧
    envLookup (append_to_env_var [] "PATH" "/x" " ") "PATH" = some "/x" ∧
    envLookup (append_to_env_var [("PATH", "/a")] "PATH" "/x" " ") "PATH" = some "/a /x" := by
  intro env v value sep
  refine ⟨?_, ?_, ?_, rfl, rfl⟩
  · intro old h hne; simp [append_to_env_var, h, hne]
  · intro h; simp [append_to_env_var, h]
  · intro h; simp [append_to_env_var, h]

/-- C7 witness: the two concrete `PATH` scenarios from the claim. -/
theorem C7_witness :
    envLookup (append_to_env_var [] "PATH" "/x" " ") "PATH" = some "/x" ∧
    envLookup (append_to_env_var [("PATH", "/a")] "PATH" "/x" " ") "PATH" = some "/a /x" :=
  ⟨(C7_append_var [] "PATH" "/x" " ").2.2.2.1,
   (C7_append_var [("PATH", "/a")] "PATH" "/x" " ").2.2.2.2⟩

/-- C8: `set_env_var` with the `None` sentinel leaves the whole mapping
unchanged, and with a real value it assigns that value. -/
theorem C8_set_var_none_noop :
    ∀ (env : EnvMap) (v : String),
    set_env_var env v none = env ∧
    (∀ value, set_env_var env v (some value) = envSet env v value) := by
  intro env v
  exact ⟨rfl, fun _ => rfl⟩

/-- C10 counterexample: running `import_env` against the dry-run backend
(whose `check_output` returns `None`) still writes the `'+ '` command
echo to the backend console, because the `check_output` dispatch goes
through `_prepare_cmd`; so "writes nothing to the console" is false of
the program at this concrete input. -/
theorem C10_counterexample_echo_printed :
    (importEnvRun ⟨⟨"/w"⟩, [("A", "1")], false⟩ (fun c => .ok (dryRunCheckOutput c))
        "setup.sh" "cmake").2.1 = ["+ setup.sh && cmake -E environment"] ∧
    (importEnvRun ⟨⟨"/w"⟩, [("A", "1")], false⟩ (fun c => .ok (dryRunCheckOutput c))
        "setup.sh" "cmake").2.1 ≠ [] := by
  have h : (importEnvRun ⟨⟨"/w"⟩, [("A", "1")], false⟩ (fun c => .ok (dryRunCheckOutput c))
      "setup.sh" "cmake").2.1 = ["+ setup.sh && cmake -E environment"] := rfl
  exact ⟨h, by rw [h]; simp⟩

/-- C10 (amended): when the backend's captured-output primitive returns
`None` (as the dry-run `check_output` does), `import_env` leaves the
owned environment mapping entirely unchanged and raises nothing, and the
only console write is the `'+ '`-prefixed command echo printed by the
`check_output` dispatch — the parsing loop itself writes nothing. -/
theorem C10_import_env_none_only_echo :
    ∀ (r : CommandRunner) (envCmd cmakeCommand : String),
    importEnvRun r (fun c => .ok (dryRunCheckOutput c)) envCmd cmakeCommand =
      (r.env, ["+ " ++ importEnvCmd envCmd cmakeCommand], none) := by
  intro r envCmd cmakeCommand
  rfl

/-- C1: when a command exits nonzero, `check_call` raises `CommandError`
whose message is exactly the rendered display string — the same string
the runner's logging printed (prefixed by `"+ "`) — while `call` on the
same command returns the nonzero exit code and raises nothing. -/
theorem C1_check_call_raises_call_returns
    (r : CommandRunner) (exitCode : Cmd → Int) (cmd : Cmd)
    (h : exitCode cmd ≠ 0) :
    (r.check_call exitCode cmd).2 =
      .error { msg := cmdToString r.isWindows cmd } ∧
    (r.check_call exitCode cmd).1.consoleLine = "+ " ++ cmdToString r.isWindows cmd ∧
    (r.call exitCode cmd).1.consoleLine = "+ " ++ cmdToString r.isWindows cmd ∧
    (r.call exitCode cmd).2 = .ok (exitCode cmd) := by
  refine ⟨?_, ?_, rfl, rfl⟩
  · simp [CommandRunner.check_call, executorCheckCall, prepareCmd, h]
  · simp [CommandRunner.check_call, executorCheckCall, prepareCmd, h]

/-- C1 witness: a runner on a non-Windows platform running `["false"]`
under an exit-code oracle that always reports 1. -/
theorem C1_witness :
    ((fun _ => (1 : Int)) (Cmd.argv ["false"]) ≠ 0) ∧
    ((CommandRunner.check_call ⟨⟨"/w"⟩, [], false⟩ (fun _ => 1) (.argv ["false"])).2 =
        .error { msg := cmdToString false (.argv ["false"]) } ∧
      (CommandRunner.check_call ⟨⟨"/w"⟩, [], false⟩ (fun _ => 1) (.argv ["false"])).1.consoleLine =
        "+ " ++ cmdToString false (.argv ["false"]) ∧
      (CommandRunner.call ⟨⟨"/w"⟩, [], false⟩ (fun _ => 1) (.argv ["false"])).1.consoleLine =
        "+ " ++ cmdToString false (.argv ["false"]) ∧
      (CommandRunner.call ⟨⟨"/w"⟩, [], false⟩ (fun _ => 1) (.argv ["false"])).2 = .ok 1) :=
  ⟨by decide,
   C1_check_call_raises_call_returns ⟨⟨"/w"⟩, [], false⟩ (fun _ => 1) (.argv ["false"])
     (by decide)⟩

/-- C3: the display-string rendering is verbatim in shell-string mode;
in argv mode off Windows each token is `pipes.quote`d and the tokens are
joined with single spaces, any token containing a space or a shell-unsafe
character being wrapped in single quotes; in argv mode on Windows the
tokens are joined by `subprocess.list2cmdline`, which quote-wraps any
token containing whitespace. -/
theorem C3_cmd_to_string_rendering :
    ∀ (w : Bool) (s : String) (args : List String),
    cmdToString w (.shellStr s) = s ∧
    cmdToString false (.argv args) = String.intercalate " " (args.map pipesQuote) ∧
    cmdToString true (.argv args) = list2cmdline args ∧
    (∀ t, (' ' ∈ t.data ∨ ∃ c ∈ t.data, isSafeChar c = false) →
      pipesQuote t = "'" ++ pipesQuoteEsc t ++ "'") ∧
    (∀ t, (' ' ∈ t.data ∨ '\t' ∈ t.data) →
      list2cmdlineArg t = "\"" ++ l2cQuotedBody t ++ "\"") := by
  intro w s args
  refine ⟨rfl, rfl, rfl, ?_, ?_⟩
  · intro t h
    have hunsafe : ∃ c ∈ t.data, isSafeChar c = false := by
      rcases h with h | h
      · exact ⟨' ', h, by decide⟩
      · exact h
    have hall : t.data.all isSafeChar = false := by
      rcases hunsafe with ⟨c, hc, hcf⟩
      rw [List.all_eq_false]
      exact ⟨c, hc, by simp [hcf]⟩
    simp [pipesQuote, hall]
  · intro t h
    have hq : (t.data.any (· = ' ') || t.data.any (· = '\t') || t = "") = true := by
      rcases h with h | h
      · have : t.data.any (· = ' ') = true := by
          rw [List.any_eq_true]; exact ⟨' ', h, by simp⟩
        simp [this]
      · have : t.data.any (· = '\t') = true := by
          rw [List.any_eq_true]; exact ⟨'\t', h, by simp⟩
        simp [this]
    simp only [list2cmdlineArg, l2cQuotedBody, hq, if_true]

/-- C3 witness: the token `"a b"` contains a space and is quote-wrapped
by both renderings. -/
theorem C3_witness :
    pipesQuote "a b" = "'" ++ pipesQuoteEsc "a b" ++ "'" ∧
    list2cmdlineArg "a b" = "\"" ++ l2cQuotedBody "a b" ++ "\"" :=
  ⟨(C3_cmd_to_string_rendering false "x" []).2.2.2.1 "a b" (Or.inl (by decide)),
   (C3_cmd_to_string_rendering false "x" []).2.2.2.2 "a b" (Or.inl (by decide))⟩

/-- C5: `CommandRunner.__init__` copies the factory's environment
snapshot into a freshly allocated dictionary: the copy starts equal to
the snapshot, no sequence of runner env mutations changes the snapshot's
dictionary, and writing any value over the snapshot's dictionary never
changes the runner's owned dictionary. -/
theorem C5_env_copied_not_aliased :
    ∀ (st : Store) (snapRef : Nat) (muts : List EnvMutation) (m : EnvMap),
    snapRef < st.dicts.length →
    (mkCommandRunner st snapRef).1.get (mkCommandRunner st snapRef).2.envRef
      = st.get snapRef ∧
    (runnerMutateList (mkCommandRunner st snapRef).1 (mkCommandRunner st snapRef).2 muts).get
        snapRef = st.get snapRef ∧
    (∀ st2 : Store,
      (st2.setRef snapRef m).get (mkCommandRunner st snapRef).2.envRef
        = st2.get (mkCommandRunner st snapRef).2.envRef) := by
  intro st snapRef muts m h
  have hne : (mkCommandRunner st snapRef).2.envRef ≠ snapRef := by
    simp only [mkCommandRunner, Store.alloc]
    exact fun hc => absurd (hc ▸ h) (lt_irrefl _)
  refine ⟨?_, ?_, ?_⟩
  · simp [mkCommandRunner, Store.alloc, Store.get, list_get_append_length]
  · rw [runnerMutateList_get_ne _ _ _ _ hne]
    simp [mkCommandRunner, Store.alloc, Store.get, List.getElem?_append, h]
  · intro st2
    exact store_get_setRef_ne st2 snapRef _ m (fun hc => hne hc.symm)

/-- C5 witness: a one-dictionary store, a mutation sequence, and an
overwrite of the snapshot. -/
theorem C5_witness :
    (runnerMutateList (mkCommandRunner ⟨[[("A", "1")]]⟩ 0).1
        (mkCommandRunner ⟨[[("A", "1")]]⟩ 0).2 [.setVar "B" (some "2")]).get 0
      = Store.get ⟨[[("A", "1")]]⟩ 0 :=
  (C5_env_copied_not_aliased ⟨[[("A", "1")]]⟩ 0 [.setVar "B" (some "2")] [] (by decide)).2.1

/-- C9: `find_executable` on the runner raises `KeyError` when the owned
mapping has no `PATH`, and when `PATH` is present the search result is
independent of the ambient OS environment. -/
theorem C9_find_executable_owned_path :
    ∀ (isfile : String → Bool) (ambient env : EnvMap) (name : String),
    (envLookup env "PATH" = none →
      CommandRunner.find_executable isfile ambient env name = .error (.keyError "PATH")) ∧
    (∀ ambient2, CommandRunner.find_executable isfile ambient env name =
      CommandRunner.find_executable isfile ambient2 env name) := by
  intro isfile ambient env name
  constructor
  · intro h
    simp [CommandRunner.find_executable, h]
  · intro ambient2
    simp only [CommandRunner.find_executable]
    cases envLookup env "PATH" with
    | none => rfl
    | some p => rfl

/-- C9 witness: an empty owned mapping has no `PATH`, so the lookup
raises `KeyError("PATH")`. -/
theorem C9_witness :
    CommandRunner.find_executable (fun _ => false) [("PATH", "/bin")] [] "gcc" =
      .error (.keyError "PATH") :=
  (C9_find_executable_owned_path (fun _ => false) [("PATH", "/bin")] [] "gcc").1 rfl

end Releng
